import Mathlib

/-!
Verification of the gws-scanner scan pipeline against its specification.

The Python modules under `gws_volume_scanner/` are shallowly embedded below:
pure functions become Lean functions, Python `int` becomes `Int`, Python
`datetime`/`timedelta` values become integer second counts (every interval
bound in `constants.py` is a whole number of seconds) while the running mean
`mean_heat` is kept as an exact rational,
Python dictionaries become association lists, and a Python statement that can
raise becomes an `Option`/pair-with-flag result.  External collaborators
(the `pwd` database, the stdlib `mimetypes` table, the wall clock) are passed
in explicitly through an `Env` record.
-/

namespace GwsScanner

/-- Python's `bisect.bisect_right` on a sorted list: the insertion point after
any entries equal to `x`, i.e. the index of the first element greater than
`x`.  On the sorted bound lists used by `categorize.py` this linear-scan
definition agrees with the library binary search. -/
def bisect_right {α : Type} [LinearOrder α] : List α → α → Nat
  | [], _ => 0
  | v :: rest, x => if x < v then 0 else bisect_right rest x + 1

/-- One entry of `constants.SIZE_BUCKETS`: a key label, the `from` bound and
the optional `to` bound (the last bucket has no `to`).  `from` is a reserved
word in Lean, hence the trailing underscores. -/
structure SizeBucket where
  key : String
  from_ : Int
  to_ : Option Int
  deriving DecidableEq, Repr

/-- `constants.SIZE_BUCKETS`, the 14-bucket size partition. -/
def SIZE_BUCKETS : List SizeBucket :=
  [⟨"*-10B", -1, some 10⟩,
   ⟨"10B-100B", 10, some 100⟩,
   ⟨"100B-1kB", 100, some 1000⟩,
   ⟨"1kB-10kB", 1000, some 10000⟩,
   ⟨"10kB-100kB", 10000, some 100000⟩,
   ⟨"100kb-1MB", 100000, some 1000000⟩,
   ⟨"1MB-10MB", 1000000, some 10000000⟩,
   ⟨"10MB-100MB", 10000000, some 100000000⟩,
   ⟨"100MB-1GB", 100000000, some 1000000000⟩,
   ⟨"1GB-10GB", 1000000000, some 10000000000⟩,
   ⟨"10GB-100GB", 10000000000, some 100000000000⟩,
   ⟨"100GB-1TB", 100000000000, some 1000000000000⟩,
   ⟨"1TB-10TB", 1000000000000, some 10000000000000⟩,
   ⟨"10TB-*", 10000000000000, none⟩]

/-- `categorize.get_size_bin`.  The Python body is
`keys[bisect.bisect_right(values, size)]` over the `from` bounds; indexing
past the end of `keys` raises `IndexError`, modelled by `none`. -/
def get_size_bin (size : Int) : Option String :=
  let values := SIZE_BUCKETS.map (·.from_)
  let keys := SIZE_BUCKETS.map (·.key)
  keys[bisect_right values size]?

/-- One entry of `constants.TIME_BUCKETS`; the `timedelta` bounds are given
in whole seconds, so `days=-1` is `-86400` and `hours=1` is `3600`.
Datetimes and timedeltas are modelled as integer second counts throughout
(every bound in `constants.py` is a whole number of seconds). -/
structure TimeBucket where
  key : String
  from_ : Int
  to_ : Option Int
  deriving DecidableEq, Repr

/-- `constants.TIME_BUCKETS`, the 10-bucket heat partition of `now - atime`. -/
def TIME_BUCKETS : List TimeBucket :=
  [⟨"*-1h", -86400, some 3600⟩,
   ⟨"1h-1d", 3600, some 86400⟩,
   ⟨"1d-1w", 86400, some 604800⟩,
   ⟨"1w-1m", 604800, some 2592000⟩,
   ⟨"1m-3m", 2592000, some 7776000⟩,
   ⟨"3m-6m", 7776000, some 15552000⟩,
   ⟨"6m-1y", 15552000, some 31536000⟩,
   ⟨"1y-2y", 31536000, some 63072000⟩,
   ⟨"2y-5y", 63072000, some 157680000⟩,
   ⟨"5y-*", 157680000, none⟩]

/-- `categorize.get_time_bin`.  Datetimes are integer second counts since
the epoch; `now` models the `dt.datetime.now()` calls made inside the
function (idealised to a single instant).  The Python body bisects
`[now - b.from for b in reversed(TIME_BUCKETS)]` and indexes the reversed key
list; an `IndexError` is caught and turned into the first bucket's key plus a
logged warning, modelled by the boolean in the result. -/
def get_time_bin (now datetime : Int) : String × Bool :=
  let values := TIME_BUCKETS.reverse.map (fun x => now - x.from_)
  let keys := TIME_BUCKETS.reverse.map (·.key)
  match keys[bisect_right values datetime]? with
  | some k => (k, false)
  | none => ((TIME_BUCKETS.map (·.key)).headI, true)

/-- Decidable test that an age (seconds) lies in a bucket's half-open
interval `(from, to]`; the last bucket has no upper bound. -/
def TimeBucket.containsAge (b : TimeBucket) (age : Int) : Bool :=
  decide (b.from_ < age) &&
    (match b.to_ with
     | some t => decide (age ≤ t)
     | none => true)

/-- Python `str.replace(".", "__")`, used to sanitise file-type tokens and
usernames before they become backend field names.  Since the pattern is the
single character `.`, the replacement is a character-wise expansion. -/
def replace_dots (s : String) : String :=
  String.mk ((s.data.map (fun c => if c = '.' then ['_', '_'] else [c])).flatten)

/-- Python `str.rstrip("/")`: drop trailing slash characters. -/
def rstrip_slash (s : String) : String :=
  String.mk ((s.data.reverse.dropWhile (fun c => c = '/')).reverse)

/-- The kind of an inode as decided by the `stat.S_IS*` predicates on its
mode word.  Exactly one predicate holds for a real mode, so the Python
if/elif chain in `categorize.detect_filetype` is modelled by this inductive.
`other` is a mode satisfying none of the predicates. -/
inductive FileKind where
  | directory | chr | blk | fifo | symlink | sock | door | port | wht | regular | other
  deriving DecidableEq, Repr

/-- The fields of an `os.stat_result` that the scanner reads.  `st_atime` is
a POSIX timestamp in whole seconds. -/
structure Stat where
  st_size : Int
  st_atime : Int
  st_uid : Nat
  st_mode : FileKind
  deriving DecidableEq, Repr

/-- External collaborators of the classifier, passed explicitly: the
process's `pwd` database (uid to username), the stdlib `mimetypes` table
(path to MIME type, `none` when the suffix is unknown), and the wall clock
read by `dt.datetime.now()` (idealised to one instant per scan). -/
structure Env where
  pwd : Nat → Option String
  mime : String → Option String
  now : Int

/-- `categorize.username_from_uid`: resolve a uid, replacing dots in the
username; an unresolvable uid yields the `__unknown_uid_N__` token. -/
def username_from_uid (env : Env) (uid : Nat) : String :=
  match env.pwd uid with
  | some name => replace_dots name
  | none => "__unknown_uid_" ++ toString uid ++ "__"

/-- `categorize.detect_filetype`: mode-based dispatch first; only regular
files fall through to MIME guessing; all dots in the result are replaced. -/
def detect_filetype (env : Env) (path : String) (stat_ : Stat) : String :=
  let ftype :=
    match stat_.st_mode with
    | .directory => "__directory__"
    | .chr => "__character_device__"
    | .blk => "__block_device__"
    | .fifo => "__named_pipe__"
    | .symlink => "__symlink__"
    | .sock => "__socket__"
    | .door => "__door__"
    | .port => "__port__"
    | .wht => "__whiteout__"
    | .regular =>
      match env.mime path with
      | none => "__unknown_file__"
      | some guess => guess
    | .other => "__unknown__"
  replace_dots ftype

/-- A `{count, size}` cell of one of the per-bucket maps. -/
structure CS where
  count : Int
  size : Int
  deriving DecidableEq, Repr

/-- A Python `defaultdict(dict_count_size)` as an association list. -/
abbrev Dict := List (String × CS)

/-- The effect of `d[key]["count"] += 1; d[key]["size"] += sz` on a
`defaultdict`: update the existing cell, or create a `{0, 0}` cell and add
into it. -/
def dict_add (d : Dict) (key : String) (sz : Int) : Dict :=
  match d with
  | [] => [(key, ⟨1, sz⟩)]
  | (k, cs) :: rest =>
    if k = key then (k, ⟨cs.count + 1, cs.size + sz⟩) :: rest
    else (k, cs) :: dict_add rest key sz

/-- Dictionary lookup with the `defaultdict` default. -/
def dict_get (d : Dict) (key : String) : CS :=
  match d.find? (fun e => e.1 = key) with
  | some e => e.2
  | none => ⟨0, 0⟩

/-- Sum of the `count` fields over all buckets of a map. -/
def sum_count (d : Dict) : Int := (d.map (fun e => e.2.count)).sum

/-- Sum of the `size` fields over all buckets of a map. -/
def sum_size (d : Dict) : Int := (d.map (fun e => e.2.size)).sum

/-- The directory document of `models.File`, with the fields its
constructor and `incorporate_child` touch. -/
structure File where
  path : String
  scan_id : String
  start_timestamp : Int
  size : Int
  count : Int
  owner : String
  atime : Int
  filetype : String
  includes_children : Bool
  mean_heat : ℚ
  filetypes : Dict
  size_bins : Dict
  heat_bins : Dict
  users : Dict
  deriving DecidableEq, Repr

/-- `models.File.__init__` with an already-obtained `stat_` (the claims all
assume the `lstat` succeeded).  The Latin-1 byte coercion of the path is the
identity on the plain ASCII paths modelled here, so only the `rstrip("/")`
is kept.  `get_size_bin` raising `IndexError` aborts construction before the
document exists, modelled by `none`. -/
def File.init (env : Env) (path : String) (start_timestamp : Int) (scan_id : String)
    (stat_ : Stat) : Option File :=
  let username := username_from_uid env stat_.st_uid
  let atime := stat_.st_atime
  let ftype := detect_filetype env path stat_
  match get_size_bin stat_.st_size with
  | none => none
  | some bin_ =>
    let heat := (get_time_bin env.now atime).1
    some
      { path := rstrip_slash path
        scan_id := scan_id
        start_timestamp := start_timestamp
        size := stat_.st_size
        count := 1
        owner := username
        atime := atime
        filetype := ftype
        includes_children := false
        mean_heat := ((start_timestamp - atime : Int) : ℚ)
        filetypes := dict_add [] ftype stat_.st_size
        size_bins := dict_add [] bin_ stat_.st_size
        heat_bins := dict_add [] heat stat_.st_size
        users := dict_add [] username stat_.st_size }

/-- `models.File.incorporate_child` with an already-obtained `stat_`.  The
boolean result is `false` when `categorize.get_size_bin` raises
`IndexError`; Python then propagates the exception after the statements
before it have already mutated `size`, `count` and `filetypes`, so the
returned document carries exactly those partial updates. -/
def File.incorporate_child (env : Env) (f : File) (path : String) (stat_ : Stat) :
    File × Bool :=
  let ftype := detect_filetype env path stat_
  let fupd : File :=
    { f with
        size := f.size + stat_.st_size
        count := f.count + 1
        filetypes := dict_add f.filetypes ftype stat_.st_size }
  match get_size_bin stat_.st_size with
  | none => (fupd, false)
  | some bin_ =>
    let heat := (get_time_bin env.now stat_.st_atime).1
    let username := username_from_uid env stat_.st_uid
    let age : Int := f.start_timestamp - stat_.st_atime
    (({ fupd with
        size_bins := dict_add f.size_bins bin_ stat_.st_size
        heat_bins := dict_add f.heat_bins heat stat_.st_size
        users := dict_add f.users username stat_.st_size
        mean_heat := (fupd.mean_heat * ((fupd.count : ℚ) - 1) + (age : ℚ)) /
          (fupd.count : ℚ)
        includes_children := true }), true)

/-- Sequentially incorporate a list of `(path, stat)` children into a
document, as the absorb workers do one call at a time under the document's
lock.  The flag is `true` iff every call completed without raising. -/
def scanFold (env : Env) : File → List (String × Stat) → File × Bool
  | f, [] => (f, true)
  | f, c :: rest =>
    let r := File.incorporate_child env f c.1 c.2
    let r2 := scanFold env r.1 rest
    (r2.1, r.2 && r2.2)

/-- An environment with no resolvable uids and no known MIME suffixes, with
the wall clock at the epoch. -/
def env0 : Env := ⟨fun _ => none, fun _ => none, 0⟩

/-- An environment that additionally knows the stdlib `mimetypes` fact that
a `.txt` suffix guesses as `text/plain`. -/
def envT : Env :=
  ⟨fun _ => none, fun p => if p = "/t/a.txt" then some "text/plain" else none, 0⟩

/-- The stat of the directory in the C5 witness scenario: 3 bytes, atime 10
seconds before the scan start. -/
def stW : Stat := ⟨3, -10, 0, .directory⟩

/-- The two children of the C5 witness scenario, with ages 20 and 30
seconds. -/
def csW : List (String × Stat) :=
  [("/t/a", ⟨1, -20, 0, .regular⟩), ("/t/b", ⟨2, -30, 0, .regular⟩)]

/-- One optional-field per-GWS configuration dictionary, the shape of
`config.GWSConfigSchema` (a `total=False` TypedDict): a key is absent when
the TOML layer did not set it. -/
structure GWSConfigOpt where
  full_item_walk_dirs : Option (List String)
  aggregate_subdir_paths : Option (List String)
  aggregate_subdir_names : Option (List String)
  scan_depth : Option Int
  deriving DecidableEq, Repr

/-- The fully resolved per-volume configuration returned by
`ScannerConfig.gws_config`. -/
structure GWSConfigResolved where
  full_item_walk_dirs : List String
  aggregate_subdir_paths : List String
  aggregate_subdir_names : List String
  scan_depth : Int
  deriving DecidableEq, Repr

/-- Python's `{**a, **b}` dictionary merge on the four known keys: a key
present in `b` replaces the one from `a`. -/
def dict_merge (a b : GWSConfigOpt) : GWSConfigOpt :=
  ⟨b.full_item_walk_dirs.orElse (fun _ => a.full_item_walk_dirs),
   b.aggregate_subdir_paths.orElse (fun _ => a.aggregate_subdir_paths),
   b.aggregate_subdir_names.orElse (fun _ => a.aggregate_subdir_names),
   b.scan_depth.orElse (fun _ => a.scan_depth)⟩

/-- Python `list(set(x))`: the same element set with duplicates removed (the
iteration order of a Python `set` is unspecified; `dedup` is the canonical
representative, and the theorems below only use membership). -/
def py_list_set (l : List String) : List String := l.dedup

/-- `config.ScannerConfig.gws_config`: merge `{**defaults, **user}` and then
`{**that, **configs[path]}` (field-wise replacement), then set-union each
list field with the admin overrides and take the minimum of `scan_depth`
with the override (defaulting to `100000`).  The direct subscripts
`config_dict["..."]` raise `KeyError` when a required key is missing from
every layer, modelled by `none`. -/
def gws_config (gws_defaults user_dict admin_config gws_overrides : GWSConfigOpt) :
    Option GWSConfigResolved :=
  let config_dict := dict_merge (dict_merge gws_defaults user_dict) admin_config
  match config_dict.full_item_walk_dirs, config_dict.aggregate_subdir_paths,
      config_dict.aggregate_subdir_names, config_dict.scan_depth with
  | some fw, some ap, some an, some sd =>
    some
      ⟨py_list_set (fw ++ gws_overrides.full_item_walk_dirs.getD []),
       py_list_set (ap ++ gws_overrides.aggregate_subdir_paths.getD []),
       py_list_set (an ++ gws_overrides.aggregate_subdir_names.getD []),
       min sd (gws_overrides.scan_depth.getD 100000)⟩
  | _, _, _, _ => none

/-- A task tuple placed on the scan queue by `scanner.queuescan`:
`(dirpath, dirnames, filenames, walk_items, aggregate_subdirs)`; the
`start_timestamp` and `scan_id` components are constant over a scan and
omitted.  Paths are modelled as component lists. -/
structure ToScan where
  dirpath : List String
  subdirs : List String
  files : List String
  walk_items : Bool
  aggregate_subdirs : Bool
  deriving DecidableEq, Repr

/-- A directory tree as enumerated by `vendor.os.walk`: named subdirectories
and file names. -/
inductive FSTree where
  | node (subdirs : List (String × FSTree)) (files : List String)

/-- The subdirectory-name list of a tree node (`dirnames` in `os.walk`). -/
def FSTree.subdirNames : FSTree → List String
  | .node subs _ => subs.map (fun p => p.1)

/-- The file-name list of a tree node (`filenames` in `os.walk`). -/
def FSTree.fileNames : FSTree → List String
  | .node _ fs => fs

/-- The per-volume scan policy as consumed by the Walker, with paths in
component-list form. -/
structure WalkConfig where
  full_item_walk_dirs : List (List String)
  aggregate_subdir_paths : List (List String)
  aggregate_subdir_names : List String
  scan_depth : Int
  deriving DecidableEq, Repr

/-- The Walker's depth computation
`len(dirpath.removeprefix(str(path)).strip("/").split("/"))`: the number of
components of `dirpath` beyond the root, except that the root itself gives
1 because splitting the empty string yields `[""]`. -/
def pyDepth (root dirpath : List String) : Nat :=
  if dirpath.length ≤ root.length then 1 else dirpath.length - root.length

/-- The Walker's basename computation
`dirpath.strip("/").rpartition("/")[2]`: the last path component. -/
def basename (dirpath : List String) : String := dirpath.getLastD ""

/-- The `aggregate_subdirs` condition of `scanner.queuescan`:
`depth >= scan_depth or dirpath in aggregate_subdir_paths or
basename in aggregate_subdir_names`. -/
def aggFlag (cfg : WalkConfig) (root dirpath : List String) : Bool :=
  decide (cfg.scan_depth ≤ (pyDepth root dirpath : Int)) ||
    decide (dirpath ∈ cfg.aggregate_subdir_paths) ||
    decide (basename dirpath ∈ cfg.aggregate_subdir_names)

mutual

/-- `scanner.queuescan` restricted to the subtree rooted at `dirpath`: emit
the task for this directory and, unless `aggregate_subdirs` holds (in which
case `dirnames.clear()` prunes the traversal), walk into every
subdirectory.  The emitted task always carries the complete
subdirectory-name list (the Python code passes a deep copy when pruning;
copying is the identity in this functional model). -/
def queuescanAux (cfg : WalkConfig) (root dirpath : List String) :
    FSTree → List ToScan
  | .node subs files =>
    let task : ToScan :=
      ⟨dirpath, subs.map (fun p => p.1), files,
        decide (dirpath ∈ cfg.full_item_walk_dirs), aggFlag cfg root dirpath⟩
    if aggFlag cfg root dirpath then [task]
    else task :: queuescanChildren cfg root dirpath subs

/-- Walk the children of a directory in order. -/
def queuescanChildren (cfg : WalkConfig) (root dirpath : List String) :
    List (String × FSTree) → List ToScan
  | [] => []
  | (name, child) :: rest =>
    queuescanAux cfg root (dirpath ++ [name]) child ++
      queuescanChildren cfg root dirpath rest

end

/-- `scanner.queuescan`: top-down walk of the volume rooted at `root`,
emitting one task per visited directory. -/
def queuescan (cfg : WalkConfig) (root : List String) (t : FSTree) : List ToScan :=
  queuescanAux cfg root root t

/-- The exception and warning classes defined by `scanner/errors.py`. -/
def errors_module : List String :=
  ["ScannerConfigError", "ScannerMainConfigError", "ScannerGWSConfigError",
   "FileNotFoundWarning"]

/-- A Python exception as observed by the caller of the coordinator: either
an instance of a class defined in `errors.py`, or the `AttributeError`
produced by evaluating `errors.X` for an `X` the module does not define. -/
inductive PyErr where
  | raised (name : String)
  | attributeError (missing : String)
  deriving DecidableEq, Repr

/-- Evaluate-and-raise `raise errors.NAME`: if `errors.py` defines `NAME`
the named exception is raised, otherwise the attribute lookup itself raises
`AttributeError`. -/
def raise_from_errors (name : String) : PyErr :=
  if name ∈ errors_module then .raised name else .attributeError name

/-- One externally visible action of the coordinator after the walk phase
of `scan_single.scan_single_gws` (lines 49-96). -/
inductive CoordStep where
  | aggregateStep
  | queryOldScanIds
  | joinSinkQueue
  | deleteOldData (scan_id : String)
  | setOldStatus (scan_id : String) (status : String)
  | finalize
  deriving DecidableEq, Repr

/-- The supersession of one old scan id: delete its data-index documents
and transition its lifecycle status (`complete` to `removed`,
`in_progress` to `failed`); other statuses are left alone. -/
def supersede (statusOf : String → String) (oldscan : String) : List CoordStep :=
  if statusOf oldscan = "complete" then
    [.deleteOldData oldscan, .setOldStatus oldscan "removed"]
  else if statusOf oldscan = "in_progress" then
    [.deleteOldData oldscan, .setOldStatus oldscan "failed"]
  else []

/-- The post-walk tail of `scan_single.scan_single_gws` (lines 45-96): the
abort check, then aggregation, the old-scan-id query, the sink-queue join,
the supersession loop over `old_scan_ids` minus the current id, and
finalization.  The result is the raised exception (if any), the volume
document's status as left by this code, and the ordered list of externally
visible steps. -/
def scan_single_post (abortSet : Bool) (old_scan_ids : List String)
    (current_id : String) (statusOf : String → String) :
    Option PyErr × String × List CoordStep :=
  if abortSet then
    (some (raise_from_errors "AbortError"), "in_progress", [])
  else
    (none, "complete",
      [.aggregateStep, .queryOldScanIds, .joinSinkQueue] ++
        ((old_scan_ids.erase current_id).map (supersede statusOf)).flatten ++
        [.finalize])

/-- The policy of the walker witness scenario: prune at any directory named
`sub`. -/
def walkCfg0 : WalkConfig := ⟨[], [], ["sub"], 100000⟩

/-- The tree of the walker witness scenario: `/t` contains file `f` and
directory `sub`, which contains directory `x`. -/
def walkT0 : FSTree := .node [("sub", .node [("x", .node [] [])] [])] ["f"]

/-- The state of the sink worker (`elastic.worker`) and its joinable input
queue: documents still queued, the worker's local `staging` list, the
documents already bulk-written to the index, and the queue's
unfinished-task count (incremented by `put`, decremented by `task_done`). -/
structure SinkState where
  queued : List String
  staging : List String
  flushed : List String
  unfinished : Nat
  deriving DecidableEq, Repr

/-- `queue.put` as seen by the sink: enqueue and bump the unfinished-task
count. -/
def sink_put (s : SinkState) (doc : String) : SinkState :=
  { s with queued := s.queued ++ [doc], unfinished := s.unfinished + 1 }

/-- Whether the 10-second `inqueue.get` of one loop iteration returned an
item or raised `queue.Empty`. -/
inductive SinkEvent where
  | recv
  | timeout

/-- One iteration of the `elastic.worker` loop (elastic.py lines 114-128):
on a successful get the document is staged and `task_done()` is called
immediately, then the staging list is flushed only once it reaches
`max(1000, queue_length_scale_factor)` items; on `queue.Empty` the `send`
flag forces a flush of any staged documents. -/
def worker_step (scale : Nat) (s : SinkState) (e : SinkEvent) : SinkState :=
  match e with
  | .recv =>
    match s.queued with
    | [] => s
    | d :: rest =>
      let s1 : SinkState :=
        { s with queued := rest, staging := s.staging ++ [d],
                 unfinished := s.unfinished - 1 }
      if max 1000 scale ≤ s1.staging.length then
        { s1 with flushed := s1.flushed ++ s1.staging, staging := [] }
      else s1
  | .timeout =>
    if 0 < s.staging.length then
      { s with flushed := s.flushed ++ s.staging, staging := [] }
    else s

end GwsScanner

namespace GwsScanner

/-- Closed form of `get_time_bin`: unfolding the reversed bound list and the
bisection yields a cascade of comparisons of `datetime` against
`now - from`. -/
theorem get_time_bin_unfold (now x : Int) :
    get_time_bin now x =
      (if x < now - 157680000 then ("5y-*", false)
       else if x < now - 63072000 then ("2y-5y", false)
       else if x < now - 31536000 then ("1y-2y", false)
       else if x < now - 15552000 then ("6m-1y", false)
       else if x < now - 7776000 then ("3m-6m", false)
       else if x < now - 2592000 then ("1m-3m", false)
       else if x < now - 604800 then ("1w-1m", false)
       else if x < now - 86400 then ("1d-1w", false)
       else if x < now - 3600 then ("1h-1d", false)
       else if x < now + 86400 then ("*-1h", false)
       else ("*-1h", true)) := by
  have hv : TIME_BUCKETS.reverse.map (fun b => now - b.from_) =
      [now - 157680000, now - 63072000, now - 31536000, now - 15552000, now - 7776000,
       now - 2592000, now - 604800, now - 86400, now - 3600, now + 86400] := by
    norm_num [TIME_BUCKETS]
  have hk : TIME_BUCKETS.reverse.map TimeBucket.key =
      ["5y-*", "2y-5y", "1y-2y", "6m-1y", "3m-6m", "1m-3m", "1w-1m", "1d-1w", "1h-1d",
       "*-1h"] := by
    rfl
  unfold get_time_bin
  simp only [hv, hk]
  by_cases h1 : x < now - 157680000
  · rw [bisect_right, if_pos h1, if_pos h1]; rfl
  rw [bisect_right, if_neg h1, if_neg h1]
  by_cases h2 : x < now - 63072000
  · rw [bisect_right, if_pos h2, if_pos h2]; rfl
  rw [bisect_right, if_neg h2, if_neg h2]
  by_cases h3 : x < now - 31536000
  · rw [bisect_right, if_pos h3, if_pos h3]; rfl
  rw [bisect_right, if_neg h3, if_neg h3]
  by_cases h4 : x < now - 15552000
  · rw [bisect_right, if_pos h4, if_pos h4]; rfl
  rw [bisect_right, if_neg h4, if_neg h4]
  by_cases h5 : x < now - 7776000
  · rw [bisect_right, if_pos h5, if_pos h5]; rfl
  rw [bisect_right, if_neg h5, if_neg h5]
  by_cases h6 : x < now - 2592000
  · rw [bisect_right, if_pos h6, if_pos h6]; rfl
  rw [bisect_right, if_neg h6, if_neg h6]
  by_cases h7 : x < now - 604800
  · rw [bisect_right, if_pos h7, if_pos h7]; rfl
  rw [bisect_right, if_neg h7, if_neg h7]
  by_cases h8 : x < now - 86400
  · rw [bisect_right, if_pos h8, if_pos h8]; rfl
  rw [bisect_right, if_neg h8, if_neg h8]
  by_cases h9 : x < now - 3600
  · rw [bisect_right, if_pos h9, if_pos h9]; rfl
  rw [bisect_right, if_neg h9, if_neg h9]
  by_cases h10 : x < now + 86400
  · rw [bisect_right, if_pos h10, if_pos h10]; rfl
  rw [bisect_right, if_neg h10, if_neg h10, bisect_right]
  rfl

/-- C1.  The claim says `get_size_bin` maps every non-negative size to the
bucket whose lower bound is the highest one `≤ size` (5 to `*-10B`, 10 to
`10B-100B`, everything from 10 TB up to `10TB-*`) and is total.  The code
indexes `keys[bisect_right(values, size)]` without the `- 1` correction, so
every size lands one bucket too high and sizes `≥ 10^13` raise `IndexError`:
a 5-byte file gets `10B-100B` even though the `*-10B` bucket of
`SIZE_BUCKETS` covers `[-1, 10)`, a 10-byte file gets `100B-1kB`, and
`10^13` gets no bucket at all. -/
theorem C1_size_bin_code_bug :
    get_size_bin 5 = some "10B-100B" ∧
    get_size_bin 10 = some "100B-1kB" ∧
    get_size_bin 10000000000000 = none ∧
    (⟨"*-10B", -1, some 10⟩ : SizeBucket) ∈ SIZE_BUCKETS ∧
    (⟨"10TB-*", 10000000000000, none⟩ : SizeBucket) ∈ SIZE_BUCKETS := by
  decide

/-- C4.  The claim says every document reachable by construction plus any
sequence of `incorporate_child` calls (with successful lstats) satisfies
`Σ size_bins[*].size = size` and the other bucket-sum identities.  The code
violates this: incorporating a child of `st_size = 10^13` raises
`IndexError` inside `get_size_bin` after `size`, `count` and `filetypes`
have been mutated but before `size_bins`, `heat_bins` and `users`, leaving
a document with `size = 10^13` whose `size_bins` sizes still sum to 0 and
whose `size_bins` counts sum to 1 while `count = 2`. -/
theorem C4_invariants_code_bug :
    ((File.init env0 "/t" 0 "sid" ⟨0, 0, 0, .directory⟩).map (fun d =>
        let r := File.incorporate_child env0 d "/t/huge" ⟨10000000000000, 0, 0, .regular⟩
        (r.2, r.1.size, r.1.count, sum_size r.1.size_bins, sum_count r.1.size_bins,
          sum_size r.1.filetypes))) =
      some (false, 10000000000000, 2, 0, 1, 10000000000000) := by
  decide

/-- C7 counterexample.  The claim says the token stored for a `.txt` regular
file is `text__plain`.  The code stores `guess.replace(".", "__")` where the
guess is the MIME type `text/plain`, which contains no dot, so the stored
token is `text/plain` unchanged: in the single-file scenario the
`text__plain` bucket stays at its `{0, 0}` default. -/
theorem C7_counterexample :
    detect_filetype envT "/t/a.txt" ⟨5, 0, 1000, .regular⟩ = "text/plain" ∧
    ((File.init envT "/t" 0 "sid" ⟨0, 0, 0, .directory⟩).map (fun d =>
        let r := File.incorporate_child envT d "/t/a.txt" ⟨5, 0, 1000, .regular⟩
        (r.1.count, dict_get r.1.filetypes "text__plain"))) =
      some (2, (⟨0, 0⟩ : CS)) := by
  decide

/-- C7 as amended.  For the directory `/t` containing exactly one 5-byte
regular file `a.txt`, constructing the directory document and incorporating
the file yields `count = 2`, `filetypes["text/plain"].count = 1` and
`filetypes["__directory__"].count = 1`: the token is the guessed MIME type
with dots replaced by `__`, and `text/plain` contains no dot. -/
theorem C7_filetype_amended :
    ((File.init envT "/t" 0 "sid" ⟨0, 0, 0, .directory⟩).map (fun d =>
        let r := File.incorporate_child envT d "/t/a.txt" ⟨5, 0, 1000, .regular⟩
        (r.2, r.1.size, r.1.count, (dict_get r.1.filetypes "text/plain").count,
          (dict_get r.1.filetypes "__directory__").count))) =
      some (true, 5, 2, 1, 1) := by
  decide

/-- C8 counterexample.  The claim says every atime strictly in the future
logs a warning.  An atime one hour in the future still falls inside the
`*-1h` bucket (whose lower bound is minus one day), so `get_time_bin`
returns normally without the warning. -/
theorem C8_counterexample :
    (0 : Int) < 3600 ∧ get_time_bin 0 3600 = ("*-1h", false) := by
  decide

/-- C8 as amended.  For every atime strictly in the future, `get_time_bin`
returns the youngest bucket key `*-1h` and does not raise; the warning is
logged exactly when the atime is at least one day past `now`, i.e. when the
age falls below the `*-1h` bucket's lower bound of minus one day. -/
theorem C8_future_atime_amended (now x : Int) (h : now < x) :
    (get_time_bin now x).1 = "*-1h" ∧
    ((get_time_bin now x).2 = true ↔ now + 86400 ≤ x) := by
  rw [get_time_bin_unfold,
    if_neg (show ¬x < now - 157680000 by omega),
    if_neg (show ¬x < now - 63072000 by omega),
    if_neg (show ¬x < now - 31536000 by omega),
    if_neg (show ¬x < now - 15552000 by omega),
    if_neg (show ¬x < now - 7776000 by omega),
    if_neg (show ¬x < now - 2592000 by omega),
    if_neg (show ¬x < now - 604800 by omega),
    if_neg (show ¬x < now - 86400 by omega),
    if_neg (show ¬x < now - 3600 by omega)]
  by_cases h10 : x < now + 86400
  · rw [if_pos h10]
    refine ⟨rfl, ?_, ?_⟩
    · intro hh
      exact (Bool.false_ne_true hh).elim
    · intro hge
      exfalso
      omega
  · rw [if_neg h10]
    refine ⟨rfl, ?_, ?_⟩
    · intro _
      omega
    · intro _
      rfl

/-- C8 witness: the amended statement applied to `now = 0` and an atime one
hour in the future. -/
theorem C8_future_atime_witness :
    (0 : Int) < 3600 ∧
      ((get_time_bin 0 3600).1 = "*-1h" ∧
        ((get_time_bin 0 3600).2 = true ↔ (0 : Int) + 86400 ≤ 3600)) :=
  ⟨by norm_num, C8_future_atime_amended 0 3600 (by norm_num)⟩

/-- C9.  For every atime whose age `now - atime` lies in the half-open
interval of one of the ten `TIME_BUCKETS`, `get_time_bin` returns that
bucket's key; in particular an age of two hours gives `1h-1d` and an age of
400 days gives `1y-2y` (see the witness). -/
theorem C9_time_bin (now atime : Int) (b : TimeBucket) (hb : b ∈ TIME_BUCKETS)
    (h : b.containsAge (now - atime) = true) :
    (get_time_bin now atime).1 = b.key := by
  fin_cases hb
  · simp only [TimeBucket.containsAge, Bool.and_eq_true, decide_eq_true_eq,
      Bool.and_true] at h
    rw [get_time_bin_unfold,
      if_neg (show ¬atime < now - 157680000 by omega),
      if_neg (show ¬atime < now - 63072000 by omega),
      if_neg (show ¬atime < now - 31536000 by omega),
      if_neg (show ¬atime < now - 15552000 by omega),
      if_neg (show ¬atime < now - 7776000 by omega),
      if_neg (show ¬atime < now - 2592000 by omega),
      if_neg (show ¬atime < now - 604800 by omega),
      if_neg (show ¬atime < now - 86400 by omega),
      if_neg (show ¬atime < now - 3600 by omega),
      if_pos (show atime < now + 86400 by omega)]
  · simp only [TimeBucket.containsAge, Bool.and_eq_true, decide_eq_true_eq,
      Bool.and_true] at h
    rw [get_time_bin_unfold,
      if_neg (show ¬atime < now - 157680000 by omega),
      if_neg (show ¬atime < now - 63072000 by omega),
      if_neg (show ¬atime < now - 31536000 by omega),
      if_neg (show ¬atime < now - 15552000 by omega),
      if_neg (show ¬atime < now - 7776000 by omega),
      if_neg (show ¬atime < now - 2592000 by omega),
      if_neg (show ¬atime < now - 604800 by omega),
      if_neg (show ¬atime < now - 86400 by omega),
      if_pos (show atime < now - 3600 by omega)]
  · simp only [TimeBucket.containsAge, Bool.and_eq_true, decide_eq_true_eq,
      Bool.and_true] at h
    rw [get_time_bin_unfold,
      if_neg (show ¬atime < now - 157680000 by omega),
      if_neg (show ¬atime < now - 63072000 by omega),
      if_neg (show ¬atime < now - 31536000 by omega),
      if_neg (show ¬atime < now - 15552000 by omega),
      if_neg (show ¬atime < now - 7776000 by omega),
      if_neg (show ¬atime < now - 2592000 by omega),
      if_neg (show ¬atime < now - 604800 by omega),
      if_pos (show atime < now - 86400 by omega)]
  · simp only [TimeBucket.containsAge, Bool.and_eq_true, decide_eq_true_eq,
      Bool.and_true] at h
    rw [get_time_bin_unfold,
      if_neg (show ¬atime < now - 157680000 by omega),
      if_neg (show ¬atime < now - 63072000 by omega),
      if_neg (show ¬atime < now - 31536000 by omega),
      if_neg (show ¬atime < now - 15552000 by omega),
      if_neg (show ¬atime < now - 7776000 by omega),
      if_neg (show ¬atime < now - 2592000 by omega),
      if_pos (show atime < now - 604800 by omega)]
  · simp only [TimeBucket.containsAge, Bool.and_eq_true, decide_eq_true_eq,
      Bool.and_true] at h
    rw [get_time_bin_unfold,
      if_neg (show ¬atime < now - 157680000 by omega),
      if_neg (show ¬atime < now - 63072000 by omega),
      if_neg (show ¬atime < now - 31536000 by omega),
      if_neg (show ¬atime < now - 15552000 by omega),
      if_neg (show ¬atime < now - 7776000 by omega),
      if_pos (show atime < now - 2592000 by omega)]
  · simp only [TimeBucket.containsAge, Bool.and_eq_true, decide_eq_true_eq,
      Bool.and_true] at h
    rw [get_time_bin_unfold,
      if_neg (show ¬atime < now - 157680000 by omega),
      if_neg (show ¬atime < now - 63072000 by omega),
      if_neg (show ¬atime < now - 31536000 by omega),
      if_neg (show ¬atime < now - 15552000 by omega),
      if_pos (show atime < now - 7776000 by omega)]
  · simp only [TimeBucket.containsAge, Bool.and_eq_true, decide_eq_true_eq,
      Bool.and_true] at h
    rw [get_time_bin_unfold,
      if_neg (show ¬atime < now - 157680000 by omega),
      if_neg (show ¬atime < now - 63072000 by omega),
      if_neg (show ¬atime < now - 31536000 by omega),
      if_pos (show atime < now - 15552000 by omega)]
  · simp only [TimeBucket.containsAge, Bool.and_eq_true, decide_eq_true_eq,
      Bool.and_true] at h
    rw [get_time_bin_unfold,
      if_neg (show ¬atime < now - 157680000 by omega),
      if_neg (show ¬atime < now - 63072000 by omega),
      if_pos (show atime < now - 31536000 by omega)]
  · simp only [TimeBucket.containsAge, Bool.and_eq_true, decide_eq_true_eq,
      Bool.and_true] at h
    rw [get_time_bin_unfold,
      if_neg (show ¬atime < now - 157680000 by omega),
      if_pos (show atime < now - 63072000 by omega)]
  · simp only [TimeBucket.containsAge, Bool.and_eq_true, decide_eq_true_eq,
      Bool.and_true] at h
    rw [get_time_bin_unfold,
      if_pos (show atime < now - 157680000 by omega)]

/-- Fields of a freshly constructed document: it counts exactly its own
inode, carries the scan's start timestamp, and its `mean_heat` is its own
age `start_timestamp - atime`. -/
theorem File.init_fields (env : Env) (p : String) (ts : Int) (sid : String)
    (st0 : Stat) (f0 : File) (h : File.init env p ts sid st0 = some f0) :
    f0.count = 1 ∧ f0.start_timestamp = ts ∧
      f0.mean_heat = ((ts - st0.st_atime : Int) : ℚ) := by
  simp only [File.init] at h
  cases hb : get_size_bin st0.st_size <;> rw [hb] at h
  · simp at h
  · simp only [Option.some.injEq] at h
    subst h
    exact ⟨rfl, rfl, rfl⟩

/-- Effect of a successful `incorporate_child` on the count, the start
timestamp and the running mean: the code's incremental update
`mean = (mean * (count - 1) + age) / count` evaluated at the incremented
count. -/
theorem incorporate_child_success (env : Env) (f : File) (p : String) (st : Stat)
    (h : (File.incorporate_child env f p st).2 = true) :
    (File.incorporate_child env f p st).1.count = f.count + 1 ∧
    (File.incorporate_child env f p st).1.start_timestamp = f.start_timestamp ∧
    (File.incorporate_child env f p st).1.mean_heat =
      (f.mean_heat * (((f.count + 1 : Int) : ℚ) - 1) +
          ((f.start_timestamp - st.st_atime : Int) : ℚ)) /
        ((f.count + 1 : Int) : ℚ) := by
  simp only [File.incorporate_child] at h ⊢
  cases hb : get_size_bin st.st_size
  · rw [hb] at h
    simp at h
  · exact ⟨rfl, rfl, rfl⟩

/-- Invariant of a run of successful `incorporate_child` calls: the count
grows by the number of children, the start timestamp is unchanged, and the
running mean times the final count equals the initial mean times the
initial count plus the sum of the incorporated ages. -/
theorem scanFold_inv (env : Env) :
    ∀ (cs : List (String × Stat)) (f : File), 1 ≤ f.count →
      (scanFold env f cs).2 = true →
      (scanFold env f cs).1.count = f.count + cs.length ∧
      (scanFold env f cs).1.start_timestamp = f.start_timestamp ∧
      (scanFold env f cs).1.mean_heat * ((f.count + cs.length : Int) : ℚ) =
        f.mean_heat * ((f.count : Int) : ℚ) +
          (cs.map (fun c => ((f.start_timestamp - c.2.st_atime : Int) : ℚ))).sum := by
  intro cs
  induction cs with
  | nil =>
    intro f hc h
    simp [scanFold]
  | cons c rest ih =>
    intro f hc h
    simp only [scanFold, Bool.and_eq_true] at h
    obtain ⟨h1, h2⟩ := h
    obtain ⟨hcount, hstart, hmean⟩ := incorporate_child_success env f c.1 c.2 h1
    have hc1 : 1 ≤ (File.incorporate_child env f c.1 c.2).1.count := by
      rw [hcount]; omega
    obtain ⟨ic, is, im⟩ := ih (File.incorporate_child env f c.1 c.2).1 hc1 h2
    simp only [hcount, hstart, hmean] at ic is im
    have hne : ((f.count + 1 : Int) : ℚ) ≠ 0 := by
      exact_mod_cast (by omega : (f.count + 1 : Int) ≠ 0)
    rw [div_mul_cancel₀ _ hne] at im
    refine ⟨?_, ?_, ?_⟩
    · simp only [scanFold]
      rw [ic]
      simp only [List.length_cons]
      omega
    · simp only [scanFold]
      rw [is]
    · simp only [scanFold, List.map_cons, List.sum_cons, List.length_cons]
      push_cast at im ⊢
      linear_combination im

/-- C5.  Construct a document for an inode of age `ts - atime_0` and
incorporate `n` children, in any sequential order, each call completing
without raising; then `mean_heat` is exactly the arithmetic mean of the
`n + 1` ages `ts - atime_i`, computed in exact rational arithmetic from the
code's incremental update `mean = (mean * (count - 1) + age) / count`. -/
theorem C5_mean_heat (env : Env) (p sid : String) (ts : Int) (st0 : Stat)
    (children : List (String × Stat))
    (h : (File.init env p ts sid st0).map (fun f0 => (scanFold env f0 children).2) =
      some true) :
    (File.init env p ts sid st0).map (fun f0 => (scanFold env f0 children).1.mean_heat) =
      some ((((ts - st0.st_atime : Int) : ℚ) +
          (children.map (fun c => ((ts - c.2.st_atime : Int) : ℚ))).sum) /
        ((children.length : ℚ) + 1)) := by
  cases hi : File.init env p ts sid st0 with
  | none => rw [hi] at h; simp at h
  | some f0 =>
    rw [hi] at h
    simp only [Option.map_some', Option.some.injEq] at h ⊢
    obtain ⟨hc, hs, hm⟩ := File.init_fields env p ts sid st0 f0 hi
    obtain ⟨ic, is, im⟩ := scanFold_inv env children f0 (by omega) h
    simp only [hc, hs, hm] at ic is im
    have hne : ((children.length : ℚ) + 1) ≠ 0 := by positivity
    rw [eq_div_iff hne]
    push_cast at im ⊢
    linear_combination im

/-- C5 witness: ages 10, 20 and 30 give `mean_heat` exactly 20. -/
theorem C5_mean_heat_witness :
    (File.init env0 "/t" 0 "sid" stW).map (fun f0 => (scanFold env0 f0 csW).2) =
        some true ∧
      (File.init env0 "/t" 0 "sid" stW).map
          (fun f0 => (scanFold env0 f0 csW).1.mean_heat) =
        some 20 := by
  constructor
  · decide
  · rw [C5_mean_heat env0 "/t" "sid" 0 stW csW (by decide)]
    simp [csW, stW]
    norm_num

/-- Membership in the task list of a directory's children: a task comes
from the walk of exactly one of the subdirectories. -/
theorem mem_queuescanChildren (cfg : WalkConfig) (root dp : List String) :
    ∀ (subs : List (String × FSTree)) (tsk : ToScan),
      tsk ∈ queuescanChildren cfg root dp subs ↔
        ∃ p, p ∈ subs ∧ tsk ∈ queuescanAux cfg root (dp ++ [p.1]) p.2 := by
  intro subs
  induction subs with
  | nil =>
    intro tsk
    simp [queuescanChildren]
  | cons hd tl ih =>
    intro tsk
    obtain ⟨name, child⟩ := hd
    rw [queuescanChildren]
    simp only [List.mem_append, ih, List.mem_cons]
    constructor
    · rintro (h | ⟨p, hp, hmem⟩)
      · exact ⟨(name, child), Or.inl rfl, h⟩
      · exact ⟨p, Or.inr hp, hmem⟩
    · rintro ⟨p, hp | hp, hmem⟩
      · subst hp
        exact Or.inl hmem
      · exact Or.inr ⟨p, hp, hmem⟩

/-- A subtree's walk only emits tasks whose `dirpath` extends the subtree's
root path. -/
theorem queuescanAux_dirpath (cfg : WalkConfig) (root : List String) :
    ∀ (n : Nat) (t : FSTree), sizeOf t ≤ n → ∀ (dp : List String) (tsk : ToScan),
      tsk ∈ queuescanAux cfg root dp t → ∃ s, tsk.dirpath = dp ++ s := by
  intro n
  induction n using Nat.strong_induction_on with
  | _ n ih =>
    intro t ht dp tsk hmem
    obtain ⟨subs, files⟩ := t
    rw [queuescanAux] at hmem
    by_cases hf : aggFlag cfg root dp = true
    · rw [if_pos hf] at hmem
      simp only [List.mem_singleton] at hmem
      subst hmem
      exact ⟨[], by simp⟩
    · rw [if_neg hf] at hmem
      rcases List.mem_cons.mp hmem with h | h
      · subst h
        exact ⟨[], by simp⟩
      · rw [mem_queuescanChildren] at h
        obtain ⟨⟨name, child⟩, hpc, hmem2⟩ := h
        have hsz : sizeOf child < sizeOf (FSTree.node subs files) := by
          have h1 := List.sizeOf_lt_of_mem hpc
          simp only [Prod.mk.sizeOf_spec, FSTree.node.sizeOf_spec] at *
          omega
        obtain ⟨s, hs⟩ :=
          ih (sizeOf child) (by omega) child le_rfl (dp ++ [name]) tsk hmem2
        exact ⟨name :: s, by simpa [List.append_assoc] using hs⟩

/-- Every emitted task's stored `aggregate_subdirs` flag equals the
aggregation condition evaluated at the task's own `dirpath`. -/
theorem queuescanAux_flag (cfg : WalkConfig) (root : List String) :
    ∀ (n : Nat) (t : FSTree), sizeOf t ≤ n → ∀ (dp : List String) (tsk : ToScan),
      tsk ∈ queuescanAux cfg root dp t →
      tsk.aggregate_subdirs = aggFlag cfg root tsk.dirpath := by
  intro n
  induction n using Nat.strong_induction_on with
  | _ n ih =>
    intro t ht dp tsk hmem
    obtain ⟨subs, files⟩ := t
    rw [queuescanAux] at hmem
    by_cases hf : aggFlag cfg root dp = true
    · rw [if_pos hf] at hmem
      simp only [List.mem_singleton] at hmem
      subst hmem
      rfl
    · rw [if_neg hf] at hmem
      rcases List.mem_cons.mp hmem with h | h
      · subst h
        rfl
      · rw [mem_queuescanChildren] at h
        obtain ⟨⟨name, child⟩, hpc, hmem2⟩ := h
        have hsz : sizeOf child < sizeOf (FSTree.node subs files) := by
          have h1 := List.sizeOf_lt_of_mem hpc
          simp only [Prod.mk.sizeOf_spec, FSTree.node.sizeOf_spec] at *
          omega
        exact ih (sizeOf child) (by omega) child le_rfl (dp ++ [name]) tsk hmem2

/-- Every strict ancestor (at or below the walked subtree's root) of an
emitted task's `dirpath` has a false aggregation flag: the Walker only
descended through directories it did not prune. -/
theorem queuescanAux_ancestor (cfg : WalkConfig) (root : List String) :
    ∀ (n : Nat) (t : FSTree), sizeOf t ≤ n → ∀ (dp : List String) (tsk : ToScan),
      tsk ∈ queuescanAux cfg root dp t →
      ∀ (p s : List String), tsk.dirpath = p ++ s → s ≠ [] →
        dp.length ≤ p.length → aggFlag cfg root p = false := by
  intro n
  induction n using Nat.strong_induction_on with
  | _ n ih =>
    intro t ht dp tsk hmem p s hps hs hlen
    obtain ⟨subs, files⟩ := t
    rw [queuescanAux] at hmem
    by_cases hf : aggFlag cfg root dp = true
    · rw [if_pos hf] at hmem
      simp only [List.mem_singleton] at hmem
      subst hmem
      exfalso
      have := congrArg List.length hps
      simp only [List.length_append] at this
      have : s.length = 0 := by omega
      exact hs (List.length_eq_zero.mp this)
    · rw [if_neg hf] at hmem
      rcases List.mem_cons.mp hmem with h | h
      · subst h
        exfalso
        have := congrArg List.length hps
        simp only [List.length_append] at this
        have : s.length = 0 := by omega
        exact hs (List.length_eq_zero.mp this)
      · rw [mem_queuescanChildren] at h
        obtain ⟨⟨name, child⟩, hpc, hmem2⟩ := h
        have hsz : sizeOf child < sizeOf (FSTree.node subs files) := by
          have h1 := List.sizeOf_lt_of_mem hpc
          simp only [Prod.mk.sizeOf_spec, FSTree.node.sizeOf_spec] at *
          omega
        by_cases hlen2 : dp.length + 1 ≤ p.length
        · exact ih (sizeOf child) (by omega) child le_rfl (dp ++ [name]) tsk hmem2
            p s hps hs (by simpa using hlen2)
        · obtain ⟨s2, hs2⟩ :=
            queuescanAux_dirpath cfg root (sizeOf child) child le_rfl
              (dp ++ [name]) tsk hmem2
          have heq : p ++ s = dp ++ ([name] ++ s2) := by
            rw [← hps, hs2, List.append_assoc]
          have hpd : p = dp :=
            (List.append_inj heq (by omega)).1
          subst hpd
          simpa using hf

/-- C10.  For every directory the Walker visits, the emitted task's
`aggregate_subdirs` flag holds exactly when
`depth >= scan_depth or dirpath in aggregate_subdir_paths or basename in
aggregate_subdir_names`; no task is ever emitted for a proper descendant of
a directory whose flag is true (the traversal is pruned there); and the
walk of a subtree rooted at a flagged directory is exactly the one task
carrying that directory's complete subdirectory-name and file-name lists. -/
theorem C10_walker (cfg : WalkConfig) (root : List String) (t : FSTree) :
    (∀ tsk ∈ queuescan cfg root t,
        tsk.aggregate_subdirs = aggFlag cfg root tsk.dirpath) ∧
    (∀ t1 ∈ queuescan cfg root t, t1.aggregate_subdirs = true →
        ∀ t2 ∈ queuescan cfg root t, ∀ s, s ≠ [] → t2.dirpath ≠ t1.dirpath ++ s) ∧
    (∀ (dp : List String) (t' : FSTree), aggFlag cfg root dp = true →
        queuescanAux cfg root dp t' =
          [⟨dp, t'.subdirNames, t'.fileNames,
            decide (dp ∈ cfg.full_item_walk_dirs), true⟩]) := by
  refine ⟨?_, ?_, ?_⟩
  · intro tsk hmem
    exact queuescanAux_flag cfg root (sizeOf t) t le_rfl root tsk hmem
  · intro t1 h1 hagg t2 h2 s hsne heq
    have hflag := queuescanAux_flag cfg root (sizeOf t) t le_rfl root t1 h1
    rw [hagg] at hflag
    obtain ⟨s1, hs1⟩ := queuescanAux_dirpath cfg root (sizeOf t) t le_rfl root t1 h1
    have hroot : root.length ≤ t1.dirpath.length := by
      rw [hs1]
      simp
    have hfalse := queuescanAux_ancestor cfg root (sizeOf t) t le_rfl root t2 h2
      t1.dirpath s heq hsne hroot
    rw [← hflag] at hfalse
    exact absurd hfalse (by decide)
  · intro dp t' h
    obtain ⟨subs, files⟩ := t'
    rw [queuescanAux, if_pos h, h]
    rfl

/-- C10 witness: with policy `aggregate_subdir_names = ["sub"]` on the tree
`/t/{f, sub/x}`, the task for `/t/sub` is flagged, carries the subdirectory
list `["x"]`, the root task is not a descendant task of `/t/sub`, and the
walk of the `/t/sub` subtree is that single task. -/
theorem C10_walker_witness :
    ((⟨["t", "sub"], ["x"], [], false, true⟩ : ToScan).aggregate_subdirs =
        aggFlag walkCfg0 ["t"] ["t", "sub"]) ∧
    ((⟨["t"], ["sub"], ["f"], false, false⟩ : ToScan).dirpath ≠
        ["t", "sub"] ++ ["x"]) ∧
    (queuescanAux walkCfg0 ["t"] ["t", "sub"] (.node [("x", .node [] [])] []) =
      [⟨["t", "sub"], ["x"], [],
        decide (["t", "sub"] ∈ walkCfg0.full_item_walk_dirs), true⟩]) :=
  ⟨(C10_walker walkCfg0 ["t"] walkT0).1 ⟨["t", "sub"], ["x"], [], false, true⟩
      (by decide),
   (C10_walker walkCfg0 ["t"] walkT0).2.1 ⟨["t", "sub"], ["x"], [], false, true⟩
      (by decide) rfl ⟨["t"], ["sub"], ["f"], false, false⟩ (by decide) ["x"]
      (by decide),
   (C10_walker walkCfg0 ["t"] walkT0).2.2 ["t", "sub"] (.node [("x", .node [] [])] [])
      (by decide)⟩

/-- C6 counterexample.  The claim says each effective list field is the
set-union of defaults, user config and admin overrides.  In the code the
user dictionary replaces the defaults field-wise (`{**defaults, **user}`),
so with defaults `["a"]` and user `["b"]` the effective
`full_item_walk_dirs` is `["b"]`: the default entry `"a"` is lost rather
than unioned in. -/
theorem C6_counterexample :
    (gws_config ⟨some ["a"], some [], some [], some 5⟩ ⟨some ["b"], none, none, none⟩
        ⟨none, none, none, none⟩ ⟨none, none, none, none⟩).map
      (fun r => decide ("a" ∈ r.full_item_walk_dirs)) = some false := by
  decide

/-- C6 as amended.  The user-provided configuration replaces the defaults
field-wise, and the per-path admin config replaces both (Python dict
merges); only the admin overrides are set-unioned into the list fields of
that merged value; `scan_depth` is the minimum of the merged value and the
override, which defaults to 100000. -/
theorem C6_gws_config_amended (d u a o : GWSConfigOpt) (r : GWSConfigResolved)
    (x : String) (fw ap an : List String) (sd : Int)
    (h : gws_config d u a o = some r)
    (hfw : (dict_merge (dict_merge d u) a).full_item_walk_dirs = some fw)
    (hap : (dict_merge (dict_merge d u) a).aggregate_subdir_paths = some ap)
    (han : (dict_merge (dict_merge d u) a).aggregate_subdir_names = some an)
    (hsd : (dict_merge (dict_merge d u) a).scan_depth = some sd) :
    (x ∈ r.full_item_walk_dirs ↔
        x ∈ fw ∨ x ∈ o.full_item_walk_dirs.getD []) ∧
    (x ∈ r.aggregate_subdir_paths ↔
        x ∈ ap ∨ x ∈ o.aggregate_subdir_paths.getD []) ∧
    (x ∈ r.aggregate_subdir_names ↔
        x ∈ an ∨ x ∈ o.aggregate_subdir_names.getD []) ∧
    r.scan_depth = min sd (o.scan_depth.getD 100000) := by
  rw [gws_config, hfw, hap, han, hsd] at h
  simp only [Option.some.injEq] at h
  subst h
  refine ⟨?_, ?_, ?_, rfl⟩ <;>
    simp [py_list_set, List.mem_dedup, List.mem_append]

/-- C6 witness: defaults `["a"]`/depth 7, user `["b"]`, no per-path admin
config, overrides `["c"]`/depth 3 give `full_item_walk_dirs` with member
`"c"` and without `"a"`, and `scan_depth = min 7 3`. -/
theorem C6_gws_config_witness :
    (gws_config ⟨some ["a"], some [], some [], some 7⟩ ⟨some ["b"], none, none, none⟩
        ⟨none, none, none, none⟩ ⟨some ["c"], none, none, some 3⟩ =
      some ⟨["b", "c"], [], [], 3⟩) ∧
    ("c" ∈ (["b", "c"] : List String) ↔ "c" ∈ (["b"] : List String) ∨
        "c" ∈ ((some ["c"] : Option (List String)).getD [])) ∧
    ((3 : Int) = min 7 ((some (3 : Int) : Option Int).getD 100000)) :=
  ⟨by decide,
   (C6_gws_config_amended ⟨some ["a"], some [], some [], some 7⟩
      ⟨some ["b"], none, none, none⟩ ⟨none, none, none, none⟩
      ⟨some ["c"], none, none, some 3⟩ ⟨["b", "c"], [], [], 3⟩ "c"
      ["b"] [] [] 7 (by decide) rfl rfl rfl rfl).1,
   (C6_gws_config_amended ⟨some ["a"], some [], some [], some 7⟩
      ⟨some ["b"], none, none, none⟩ ⟨none, none, none, none⟩
      ⟨some ["c"], none, none, some 3⟩ ⟨["b", "c"], [], [], 3⟩ "c"
      ["b"] [] [] 7 (by decide) rfl rfl rfl rfl).2.2.2⟩

/-- C3.  The claim says an abort observed after the walk transitions the
volume document from `in_progress` to `failed`, persists it, and returns a
well-defined abort error.  The code's abort branch is
`if abort.is_set(): raise errors.AbortError` — but `errors.py` defines no
`AbortError`, so the attribute lookup raises `AttributeError`; the volume
document is left in `in_progress` (no `failed` transition exists on this
path, and nothing is persisted) and no further steps run. -/
theorem C3_abort_code_bug :
    scan_single_post true ["old1"] "cur" (fun _ => "complete") =
      (some (.attributeError "AbortError"), "in_progress", []) ∧
    "AbortError" ∉ errors_module := by
  decide

/-- C2.  The claim says the sink-queue join (step 6) precedes the deletion
of superseded data (step 7) — true in program order, as the step trace
shows — and that the join only returns once every document is durably
written.  The second half fails: `elastic.worker` calls `task_done()`
immediately after `inqueue.get()`, before the bulk flush, so after the
worker stages a document the queue's unfinished count is already 0 (the
join can return) while the document sits unflushed in `staging`. -/
theorem C2_sink_join_code_bug :
    (let s1 := worker_step 1 (sink_put ⟨[], [], [], 0⟩ "doc1") .recv
     s1.unfinished = 0 ∧ s1.staging = ["doc1"] ∧ s1.flushed = []) ∧
    scan_single_post false ["old1", "cur"] "cur" (fun _ => "complete") =
      (none, "complete",
        [.aggregateStep, .queryOldScanIds, .joinSinkQueue, .deleteOldData "old1",
         .setOldStatus "old1" "removed", .finalize]) := by
  decide

/-- C9 witness: an atime 400 days in the past lands in `1y-2y`, and one
2 hours in the past lands in `1h-1d`. -/
theorem C9_time_bin_witness :
    ((⟨"1y-2y", 31536000, some 63072000⟩ : TimeBucket) ∈ TIME_BUCKETS ∧
      (get_time_bin 34560000 0).1 = "1y-2y") ∧
    ((⟨"1h-1d", 3600, some 86400⟩ : TimeBucket) ∈ TIME_BUCKETS ∧
      (get_time_bin 7200 0).1 = "1h-1d") :=
  ⟨⟨by decide, C9_time_bin 34560000 0 ⟨"1y-2y", 31536000, some 63072000⟩ (by decide)
      (by decide)⟩,
   ⟨by decide, C9_time_bin 7200 0 ⟨"1h-1d", 3600, some 86400⟩ (by decide) (by decide)⟩⟩

end GwsScanner
